import Mathlib

/-!
Verification of the gz-common PBR material description and the testing
path-resolution utilities, shallowly embedded in Lean 4.

The public surface of the material type is declared in
`graphics/include/gz/common/Pbr.hh`; its implementation file (`Pbr.cc`,
holding `PbrPrivate` and the member definitions) is not part of the
sources at hand, so the behaviour of the members is modelled from the
specification, as marked on each definition.  The testing utilities
(`testing/src/TestPaths.cc`, `testing/src/BazelTestPaths.cc`) are
translated directly from the source; their missing helpers
(`common::env`, `joinPaths`, `CMakeTestPaths`, `TempDirectory`) are
modelled from the specification.
-/

namespace GzCommon

/-- Type of PBR workflow (`PbrType` in Pbr.hh). -/
inductive PbrType : Type
  | NONE
  | METAL
  | SPECULAR
deriving DecidableEq

/-- Space the normal map is defined in (`NormalMapSpace` in Pbr.hh). -/
inductive NormalMapSpace : Type
  | TANGENT
  | OBJECT
deriving DecidableEq

/-- Modelled from the spec: the field set of the PBR material description
(the backing storage `PbrPrivate` lives in `Pbr.cc`, which is missing from
the sources; the field list is the one in section 3 of the spec, matching
the accessor surface of Pbr.hh).  The C++ `double` scalars are modelled as
rationals: the type only stores and compares them, never computes with
them.  `lightMapTexCoordSet` is a C++ `unsigned int`, modelled as `Nat`
(no arithmetic is performed on it). -/
structure Pbr : Type where
  workflowType : PbrType
  albedoMap : String
  normalMap : String
  normalMapSpace : NormalMapSpace
  environmentMap : String
  ambientOcclusionMap : String
  roughnessMap : String
  metalnessMap : String
  emissiveMap : String
  lightMap : String
  lightMapTexCoordSet : Nat
  metalness : ℚ
  roughness : ℚ
  glossinessMap : String
  glossiness : ℚ
  specularMap : String
deriving DecidableEq

/-- Modelled from the spec: the default constructor `Pbr::Pbr()` (defined in
the missing `Pbr.cc`).  All path fields default to the empty string,
`workflowType` to `None`, `normalMapSpace` to `Tangent` and
`lightMapTexCoordSet` to `0`.  The spec leaves the scalar defaults
unspecified; `0` is used here (no claim depends on them). -/
def Pbr.mkDefault : Pbr where
  workflowType := PbrType.NONE
  albedoMap := ""
  normalMap := ""
  normalMapSpace := NormalMapSpace.TANGENT
  environmentMap := ""
  ambientOcclusionMap := ""
  roughnessMap := ""
  metalnessMap := ""
  emissiveMap := ""
  lightMap := ""
  lightMapTexCoordSet := 0
  metalness := 0
  roughness := 0
  glossinessMap := ""
  glossiness := 0
  specularMap := ""

/- Getters, one per accessor of Pbr.hh. -/

def Pbr.Type (p : Pbr) : PbrType := p.workflowType

def Pbr.AlbedoMap (p : Pbr) : String := p.albedoMap

def Pbr.NormalMap (p : Pbr) : String := p.normalMap

def Pbr.NormalMapType (p : Pbr) : NormalMapSpace := p.normalMapSpace

def Pbr.EnvironmentMap (p : Pbr) : String := p.environmentMap

def Pbr.AmbientOcclusionMap (p : Pbr) : String := p.ambientOcclusionMap

def Pbr.RoughnessMap (p : Pbr) : String := p.roughnessMap

def Pbr.MetalnessMap (p : Pbr) : String := p.metalnessMap

def Pbr.EmissiveMap (p : Pbr) : String := p.emissiveMap

def Pbr.LightMap (p : Pbr) : String := p.lightMap

def Pbr.LightMapTexCoordSet (p : Pbr) : Nat := p.lightMapTexCoordSet

def Pbr.Metalness (p : Pbr) : ℚ := p.metalness

def Pbr.Roughness (p : Pbr) : ℚ := p.roughness

def Pbr.GlossinessMap (p : Pbr) : String := p.glossinessMap

def Pbr.Glossiness (p : Pbr) : ℚ := p.glossiness

def Pbr.SpecularMap (p : Pbr) : String := p.specularMap

/- Setters.  Modelled from the spec: each setter replaces the value of its
named field unconditionally, accepting any input (section 4.1). -/

def Pbr.SetType (p : Pbr) (t : PbrType) : Pbr := { p with workflowType := t }

def Pbr.SetAlbedoMap (p : Pbr) (m : String) : Pbr := { p with albedoMap := m }

/-- `SetNormalMap(map, space)`: sets both the normal map and its space in
one call (the C++ default for the second argument is `TANGENT`, rendered
below as `Pbr.SetNormalMapDefault`). -/
def Pbr.SetNormalMap (p : Pbr) (m : String) (s : NormalMapSpace) : Pbr :=
  { p with normalMap := m, normalMapSpace := s }

/-- The one-argument call `SetNormalMap(map)`, using the defaulted second
argument `NormalMapSpace::TANGENT` from Pbr.hh. -/
def Pbr.SetNormalMapDefault (p : Pbr) (m : String) : Pbr :=
  p.SetNormalMap m NormalMapSpace.TANGENT

def Pbr.SetEnvironmentMap (p : Pbr) (m : String) : Pbr :=
  { p with environmentMap := m }

def Pbr.SetAmbientOcclusionMap (p : Pbr) (m : String) : Pbr :=
  { p with ambientOcclusionMap := m }

def Pbr.SetRoughnessMap (p : Pbr) (m : String) : Pbr :=
  { p with roughnessMap := m }

def Pbr.SetMetalnessMap (p : Pbr) (m : String) : Pbr :=
  { p with metalnessMap := m }

def Pbr.SetEmissiveMap (p : Pbr) (m : String) : Pbr :=
  { p with emissiveMap := m }

/-- `SetLightMap(map, uvSet)`: sets both the light map and its texture
coordinate set in one call (the C++ default for the second argument is
`0u`, rendered below as `Pbr.SetLightMapDefault`). -/
def Pbr.SetLightMap (p : Pbr) (m : String) (uv : Nat) : Pbr :=
  { p with lightMap := m, lightMapTexCoordSet := uv }

/-- The one-argument call `SetLightMap(map)`, using the defaulted second
argument `0u` from Pbr.hh. -/
def Pbr.SetLightMapDefault (p : Pbr) (m : String) : Pbr := p.SetLightMap m 0

def Pbr.SetMetalness (p : Pbr) (v : ℚ) : Pbr := { p with metalness := v }

def Pbr.SetRoughness (p : Pbr) (v : ℚ) : Pbr := { p with roughness := v }

def Pbr.SetGlossinessMap (p : Pbr) (m : String) : Pbr :=
  { p with glossinessMap := m }

def Pbr.SetGlossiness (p : Pbr) (v : ℚ) : Pbr := { p with glossiness := v }

def Pbr.SetSpecularMap (p : Pbr) (m : String) : Pbr :=
  { p with specularMap := m }

/-- Modelled from the spec: `Pbr::operator==` (defined in the missing
`Pbr.cc`); true iff every field of section 3 compares equal by value. -/
def Pbr.beq (a b : Pbr) : Bool :=
  decide (a.workflowType = b.workflowType) &&
  decide (a.albedoMap = b.albedoMap) &&
  decide (a.normalMap = b.normalMap) &&
  decide (a.normalMapSpace = b.normalMapSpace) &&
  decide (a.environmentMap = b.environmentMap) &&
  decide (a.ambientOcclusionMap = b.ambientOcclusionMap) &&
  decide (a.roughnessMap = b.roughnessMap) &&
  decide (a.metalnessMap = b.metalnessMap) &&
  decide (a.emissiveMap = b.emissiveMap) &&
  decide (a.lightMap = b.lightMap) &&
  decide (a.lightMapTexCoordSet = b.lightMapTexCoordSet) &&
  decide (a.metalness = b.metalness) &&
  decide (a.roughness = b.roughness) &&
  decide (a.glossinessMap = b.glossinessMap) &&
  decide (a.glossiness = b.glossiness) &&
  decide (a.specularMap = b.specularMap)

/-- Modelled from the spec: `Pbr::operator!=` is the exact logical negation
of `Pbr::operator==`. -/
def Pbr.bne (a b : Pbr) : Bool := !(a.beq b)

/-- The sixteen observable fields of a Pbr instance, used to state frame
conditions and field-wise equality. -/
inductive PbrField : Type
  | workflowType
  | albedoMap
  | normalMap
  | normalMapSpace
  | environmentMap
  | ambientOcclusionMap
  | roughnessMap
  | metalnessMap
  | emissiveMap
  | lightMap
  | lightMapTexCoordSet
  | metalness
  | roughness
  | glossinessMap
  | glossiness
  | specularMap
deriving DecidableEq

/-- A value observed through one of the getters. -/
inductive Obs : Type
  | ofType (t : PbrType)
  | ofStr (s : String)
  | ofSpace (s : NormalMapSpace)
  | ofNat (n : Nat)
  | ofRat (q : ℚ)
deriving DecidableEq

/-- Observe one field of a Pbr instance through its getter. -/
def Pbr.observe (p : Pbr) : PbrField → Obs
  | PbrField.workflowType => Obs.ofType p.Type
  | PbrField.albedoMap => Obs.ofStr p.AlbedoMap
  | PbrField.normalMap => Obs.ofStr p.NormalMap
  | PbrField.normalMapSpace => Obs.ofSpace p.NormalMapType
  | PbrField.environmentMap => Obs.ofStr p.EnvironmentMap
  | PbrField.ambientOcclusionMap => Obs.ofStr p.AmbientOcclusionMap
  | PbrField.roughnessMap => Obs.ofStr p.RoughnessMap
  | PbrField.metalnessMap => Obs.ofStr p.MetalnessMap
  | PbrField.emissiveMap => Obs.ofStr p.EmissiveMap
  | PbrField.lightMap => Obs.ofStr p.LightMap
  | PbrField.lightMapTexCoordSet => Obs.ofNat p.LightMapTexCoordSet
  | PbrField.metalness => Obs.ofRat p.Metalness
  | PbrField.roughness => Obs.ofRat p.Roughness
  | PbrField.glossinessMap => Obs.ofStr p.GlossinessMap
  | PbrField.glossiness => Obs.ofRat p.Glossiness
  | PbrField.specularMap => Obs.ofStr p.SpecularMap

lemma Pbr.beq_iff_eq (a b : Pbr) : a.beq b = true ↔ a = b := by
  cases a
  cases b
  simp [Pbr.beq, Pbr.mk.injEq, and_assoc]

lemma Pbr.eq_iff_observe (a b : Pbr) :
    a = b ↔ ∀ f : PbrField, a.observe f = b.observe f := by
  constructor
  · intro h f
    rw [h]
  · intro h
    cases a
    cases b
    have h1 := h PbrField.workflowType
    have h2 := h PbrField.albedoMap
    have h3 := h PbrField.normalMap
    have h4 := h PbrField.normalMapSpace
    have h5 := h PbrField.environmentMap
    have h6 := h PbrField.ambientOcclusionMap
    have h7 := h PbrField.roughnessMap
    have h8 := h PbrField.metalnessMap
    have h9 := h PbrField.emissiveMap
    have h10 := h PbrField.lightMap
    have h11 := h PbrField.lightMapTexCoordSet
    have h12 := h PbrField.metalness
    have h13 := h PbrField.roughness
    have h14 := h PbrField.glossinessMap
    have h15 := h PbrField.glossiness
    have h16 := h PbrField.specularMap
    simp only [Pbr.observe, Pbr.Type, Pbr.AlbedoMap, Pbr.NormalMap,
      Pbr.NormalMapType, Pbr.EnvironmentMap, Pbr.AmbientOcclusionMap,
      Pbr.RoughnessMap, Pbr.MetalnessMap, Pbr.EmissiveMap, Pbr.LightMap,
      Pbr.LightMapTexCoordSet, Pbr.Metalness, Pbr.Roughness,
      Pbr.GlossinessMap, Pbr.Glossiness, Pbr.SpecularMap,
      Obs.ofType.injEq, Obs.ofStr.injEq, Obs.ofSpace.injEq, Obs.ofNat.injEq,
      Obs.ofRat.injEq] at h1 h2 h3 h4 h5 h6 h7 h8 h9 h10 h11 h12 h13 h14 h15 h16
    simp [Pbr.mk.injEq, h1, h2, h3, h4, h5, h6, h7, h8, h9, h10, h11, h12,
      h13, h14, h15, h16]

lemma Pbr.beq_refl (a : Pbr) : a.beq a = true := by
  rw [Pbr.beq_iff_eq]

/-- Modelled from the spec: copy construction and copy assignment
(`Pbr::Pbr(const Pbr &)` and `Pbr::operator=(const Pbr &)`, defined in the
missing `Pbr.cc`) produce an independent instance with field-for-field
identical values; no storage is shared between source and copy. -/
def Pbr.copy (p : Pbr) : Pbr where
  workflowType := p.workflowType
  albedoMap := p.albedoMap
  normalMap := p.normalMap
  normalMapSpace := p.normalMapSpace
  environmentMap := p.environmentMap
  ambientOcclusionMap := p.ambientOcclusionMap
  roughnessMap := p.roughnessMap
  metalnessMap := p.metalnessMap
  emissiveMap := p.emissiveMap
  lightMap := p.lightMap
  lightMapTexCoordSet := p.lightMapTexCoordSet
  metalness := p.metalness
  roughness := p.roughness
  glossinessMap := p.glossinessMap
  glossiness := p.glossiness
  specularMap := p.specularMap

/-- Modelled from the spec: move construction and move assignment
(`Pbr::Pbr(Pbr &&)` and `Pbr::operator=(Pbr &&)`, defined in the missing
`Pbr.cc`) transfer the internal storage: the first component is the
destination, holding every field value of the source; the second is the
moved-from instance, left in a valid but unspecified state, modelled here
as the default-equivalent state named by the design notes of the spec. -/
def Pbr.move (p : Pbr) : Pbr × Pbr := (p, Pbr.mkDefault)

/-- One call to one setter of the Pbr interface, with its payload. -/
inductive SetterCall : Type
  | SetType (t : PbrType)
  | SetAlbedoMap (m : String)
  | SetNormalMap (m : String) (s : NormalMapSpace)
  | SetEnvironmentMap (m : String)
  | SetAmbientOcclusionMap (m : String)
  | SetRoughnessMap (m : String)
  | SetMetalnessMap (m : String)
  | SetEmissiveMap (m : String)
  | SetLightMap (m : String) (uv : Nat)
  | SetMetalness (v : ℚ)
  | SetRoughness (v : ℚ)
  | SetGlossinessMap (m : String)
  | SetGlossiness (v : ℚ)
  | SetSpecularMap (m : String)
deriving DecidableEq

/-- Execute one setter call on a Pbr instance. -/
def applySetter : SetterCall → Pbr → Pbr
  | SetterCall.SetType t, p => p.SetType t
  | SetterCall.SetAlbedoMap m, p => p.SetAlbedoMap m
  | SetterCall.SetNormalMap m s, p => p.SetNormalMap m s
  | SetterCall.SetEnvironmentMap m, p => p.SetEnvironmentMap m
  | SetterCall.SetAmbientOcclusionMap m, p => p.SetAmbientOcclusionMap m
  | SetterCall.SetRoughnessMap m, p => p.SetRoughnessMap m
  | SetterCall.SetMetalnessMap m, p => p.SetMetalnessMap m
  | SetterCall.SetEmissiveMap m, p => p.SetEmissiveMap m
  | SetterCall.SetLightMap m uv, p => p.SetLightMap m uv
  | SetterCall.SetMetalness v, p => p.SetMetalness v
  | SetterCall.SetRoughness v, p => p.SetRoughness v
  | SetterCall.SetGlossinessMap m, p => p.SetGlossinessMap m
  | SetterCall.SetGlossiness v, p => p.SetGlossiness v
  | SetterCall.SetSpecularMap m, p => p.SetSpecularMap m

/-- The fields a setter call writes (both fields for the two composite
setters, one field for all others). -/
def touched : SetterCall → List PbrField
  | SetterCall.SetType _ => [PbrField.workflowType]
  | SetterCall.SetAlbedoMap _ => [PbrField.albedoMap]
  | SetterCall.SetNormalMap _ _ => [PbrField.normalMap, PbrField.normalMapSpace]
  | SetterCall.SetEnvironmentMap _ => [PbrField.environmentMap]
  | SetterCall.SetAmbientOcclusionMap _ => [PbrField.ambientOcclusionMap]
  | SetterCall.SetRoughnessMap _ => [PbrField.roughnessMap]
  | SetterCall.SetMetalnessMap _ => [PbrField.metalnessMap]
  | SetterCall.SetEmissiveMap _ => [PbrField.emissiveMap]
  | SetterCall.SetLightMap _ _ => [PbrField.lightMap, PbrField.lightMapTexCoordSet]
  | SetterCall.SetMetalness _ => [PbrField.metalness]
  | SetterCall.SetRoughness _ => [PbrField.roughness]
  | SetterCall.SetGlossinessMap _ => [PbrField.glossinessMap]
  | SetterCall.SetGlossiness _ => [PbrField.glossiness]
  | SetterCall.SetSpecularMap _ => [PbrField.specularMap]

/-- Execute a list of setter calls in order, first call first. -/
def applyAll (l : List SetterCall) (p : Pbr) : Pbr :=
  l.foldl (fun s c => applySetter c s) p

/-- Two program variables holding Pbr values, the second being a copy of
the first; mutating the second cell leaves the first cell untouched, since
each instance owns its storage. -/
def mutateSecond (c : SetterCall) (st : Pbr × Pbr) : Pbr × Pbr :=
  (st.1, applySetter c st.2)

lemma applySetter_frame (c : SetterCall) (m : Pbr) (f : PbrField)
    (h : f ∉ touched c) : (applySetter c m).observe f = m.observe f := by
  cases c <;> cases f <;>
    first
      | rfl
      | (exfalso; exact h (by simp [touched]))

lemma applySetter_comm (c1 c2 : SetterCall)
    (h : (touched c1).Disjoint (touched c2)) (m : Pbr) :
    applySetter c1 (applySetter c2 m) = applySetter c2 (applySetter c1 m) := by
  cases m
  cases c1 <;> cases c2 <;>
    first
      | rfl
      | (exfalso; revert h; simp [touched, List.Disjoint])

lemma applyAll_perm (l1 l2 : List SetterCall) (hp : l1.Perm l2)
    (hd : l1.Pairwise (fun c1 c2 => (touched c1).Disjoint (touched c2))) :
    ∀ m : Pbr, applyAll l1 m = applyAll l2 m := by
  induction hp with
  | nil => intro m; rfl
  | cons x _ ih =>
      intro m
      have hd2 := List.Pairwise.of_cons hd
      simpa [applyAll] using ih hd2 (applySetter x m)
  | swap x y l =>
      intro m
      have hxy : (touched y).Disjoint (touched x) := by
        have := List.rel_of_pairwise_cons hd (List.mem_cons_self x l)
        exact this
      simp only [applyAll, List.foldl_cons]
      rw [applySetter_comm x y hxy.symm m]
  | trans h12 _ ih1 ih2 =>
      intro m
      have hd2 := (List.Perm.pairwise_iff
        (fun hcc => List.Disjoint.symm hcc) h12).mp hd
      rw [ih1 hd m, ih2 hd2 m]

/-- An operating-system environment: a partial map from variable names to
values.  A variable is set iff the map returns `some`. -/
def Env : Type := String → Option String

/-- Modelled from the spec: `ignition::common::joinPaths` (from Util, not
in the sources at hand) joins two path components with a separator. -/
def joinPaths (a b : String) : String := a ++ "/" ++ b

/-- The build types probed by `TestBuildType` (TestPaths.cc). -/
inductive BuildType : Type
  | kBazel
  | kCMake
  | kUnknown
deriving DecidableEq

/-- The two path-resolution strategies a `TestPathFactory` call can
produce (`BazelTestPaths` and `CMakeTestPaths`), each holding the
`projectSourcePath` its constructor received; `TestPathFactory` returns
`none` for the null pointer. -/
inductive TestPathsObj : Type
  | bazel (projectSourcePath : String)
  | cmake (projectSourcePath : String)
deriving DecidableEq

/-- `TestBuildType` from TestPaths.cc: `common::env("IGN_BAZEL", ...)`
(modelled from the spec as presence of the variable) decides bazel first;
otherwise a non-empty `_projectSourcePath` decides cmake; otherwise
unknown. -/
def TestBuildType (e : Env) (projectSourcePath : String) : BuildType :=
  let ign_bazel_set : Bool := (e "IGN_BAZEL").isSome
  let ign_cmake_set : Bool := !projectSourcePath.isEmpty
  if ign_bazel_set then BuildType.kBazel
  else if ign_cmake_set then BuildType.kCMake
  else BuildType.kUnknown

/-- `TestPathFactory` from TestPaths.cc: dispatch on `TestBuildType`. -/
def TestPathFactory (e : Env) (projectSourcePath : String) :
    Option TestPathsObj :=
  match TestBuildType e projectSourcePath with
  | BuildType.kBazel => some (TestPathsObj.bazel projectSourcePath)
  | BuildType.kCMake => some (TestPathsObj.cmake projectSourcePath)
  | BuildType.kUnknown => none

/-- `BazelTestPaths::ProjectSourcePath` from BazelTestPaths.cc.  The C++
out-parameter `_sourceDir` is modelled by passing its current value in and
returning the pair (return value, out-parameter value after the call):
when both `TEST_SRCDIR` and `IGN_BAZEL_PATH` are set, the out-parameter
receives `joinPaths(test_srcdir, "ignition", bazel_path)` and the call
returns true; otherwise the out-parameter is left untouched and the call
returns false. -/
def BazelProjectSourcePath (e : Env) (sourceDir : String) : Bool × String :=
  match e "TEST_SRCDIR" with
  | none => (false, sourceDir)
  | some test_srcdir =>
    match e "IGN_BAZEL_PATH" with
    | none => (false, sourceDir)
    | some bazel_path =>
      (true, joinPaths (joinPaths test_srcdir "ignition") bazel_path)

/-- `BazelTestPaths::TestTmpPath` from BazelTestPaths.cc: forwards
`common::env("TEST_UNDECLARED_OUTPUTS_DIR", _tmpDir)` (modelled from the
spec: true and the value when the variable is set, false and the untouched
out-parameter otherwise). -/
def BazelTestTmpPath (e : Env) (tmpDir : String) : Bool × String :=
  match e "TEST_UNDECLARED_OUTPUTS_DIR" with
  | none => (false, tmpDir)
  | some v => (true, v)

/-- The virtual dispatch of `TestPaths::TestTmpPath`.  `CMakeTestPaths` is
not in the sources at hand, so its `TestTmpPath` is a parameter
(`cmakeTmp`), constrained only to the two-valued shape the spec gives the
collaborator. -/
def dispatchTestTmpPath (cmakeTmp : Env → String → Bool × String) :
    TestPathsObj → Env → String → Bool × String
  | TestPathsObj.bazel _, e, cur => BazelTestTmpPath e cur
  | TestPathsObj.cmake _, e, cur => cmakeTmp e cur

/-- Modelled from the spec: the `TempDirectory` object constructed by
`MakeTestTempDirectoryImpl`, recorded as the four constructor arguments
(its behaviour is out of scope). -/
structure TempDirectory : Type where
  dataDir : String
  pre : String
  subDir : String
  cleanup : Bool
deriving DecidableEq

/-- `MakeTestTempDirectoryImpl` from TestPaths.cc: a null factory result
gives a null pointer; otherwise `TestTmpPath` is called on a
default-constructed (empty) `dataDir` string, and an empty resulting
`dataDir` gives a null pointer; otherwise the `TempDirectory` is built. -/
def MakeTestTempDirectoryImpl (cmakeTmp : Env → String → Bool × String)
    (e : Env) (projectSourcePath pre subDir : String) (cleanup : Bool) :
    Option TempDirectory :=
  match TestPathFactory e projectSourcePath with
  | none => none
  | some testPaths =>
    let dataDir := (dispatchTestTmpPath cmakeTmp testPaths e "").2
    if dataDir.isEmpty then none
    else some (TempDirectory.mk dataDir pre subDir cleanup)

/-- A concrete environment with only `IGN_BAZEL` set. -/
def envBazelOnly : Env :=
  fun n => if n = "IGN_BAZEL" then some "1" else none

/-- A concrete environment with no variable set. -/
def envEmpty : Env := fun _ => none

/-- A concrete environment with the three bazel path variables set. -/
def envBazelFull : Env :=
  fun n =>
    if n = "TEST_SRCDIR" then some "/srcdir"
    else if n = "IGN_BAZEL_PATH" then some "pkg"
    else if n = "TEST_UNDECLARED_OUTPUTS_DIR" then some "/outputs"
    else if n = "IGN_BAZEL" then some "1"
    else none

/-- Claim C1: for every pair of Pbr instances `a` and `b`, `a == b` returns
true iff all sixteen fields compare equal by value, and `a != b` is the
exact logical negation of `a == b`. -/
theorem claim_C1 (a b : Pbr) :
    (a.beq b = true ↔ ∀ f : PbrField, a.observe f = b.observe f) ∧
    a.bne b = !(a.beq b) :=
  ⟨(Pbr.beq_iff_eq a b).trans (Pbr.eq_iff_observe a b), rfl⟩

/-- Claim C2: a default-constructed Pbr has workflow type `NONE`, every
map getter returns the empty string, `NormalMapType()` returns `TANGENT`
and `LightMapTexCoordSet()` returns `0`. -/
theorem claim_C2 :
    Pbr.mkDefault.Type = PbrType.NONE ∧
    Pbr.mkDefault.AlbedoMap = "" ∧
    Pbr.mkDefault.NormalMap = "" ∧
    Pbr.mkDefault.EnvironmentMap = "" ∧
    Pbr.mkDefault.AmbientOcclusionMap = "" ∧
    Pbr.mkDefault.RoughnessMap = "" ∧
    Pbr.mkDefault.MetalnessMap = "" ∧
    Pbr.mkDefault.EmissiveMap = "" ∧
    Pbr.mkDefault.LightMap = "" ∧
    Pbr.mkDefault.GlossinessMap = "" ∧
    Pbr.mkDefault.SpecularMap = "" ∧
    Pbr.mkDefault.NormalMapType = NormalMapSpace.TANGENT ∧
    Pbr.mkDefault.LightMapTexCoordSet = 0 := by
  repeat' constructor

/-- Claim C3: copying a Pbr instance `a` (by copy construction or copy
assignment, both of which duplicate every field) yields `b` with
`b == a`, and mutating any field of `b` through any setter afterwards
leaves every field of `a`, observed through the getters of `a`,
unchanged. -/
theorem claim_C3 (a : Pbr) (c : SetterCall) (f : PbrField) :
    (a.copy).beq a = true ∧
    (mutateSecond c (a, a.copy)).1.observe f = a.observe f :=
  ⟨Pbr.beq_refl a, rfl⟩

/-- Claim C4: moving from `a` (move construction or move assignment)
produces a destination equal, under `operator==`, to a copy-snapshot of
`a` taken before the move. -/
theorem claim_C4 (a : Pbr) : ((Pbr.move a).1).beq (a.copy) = true :=
  Pbr.beq_refl a

/-- Claim C5: each of the eleven single-argument setters (the eight
single-argument map setters and the three scalar setters) followed by its
matching getter returns exactly the value passed in, on every starting
instance. -/
theorem claim_C5 (m : Pbr) (p : String) (v : ℚ) :
    (m.SetAlbedoMap p).AlbedoMap = p ∧
    (m.SetEnvironmentMap p).EnvironmentMap = p ∧
    (m.SetAmbientOcclusionMap p).AmbientOcclusionMap = p ∧
    (m.SetRoughnessMap p).RoughnessMap = p ∧
    (m.SetMetalnessMap p).MetalnessMap = p ∧
    (m.SetEmissiveMap p).EmissiveMap = p ∧
    (m.SetGlossinessMap p).GlossinessMap = p ∧
    (m.SetSpecularMap p).SpecularMap = p ∧
    (m.SetMetalness v).Metalness = v ∧
    (m.SetRoughness v).Roughness = v ∧
    (m.SetGlossiness v).Glossiness = v := by
  repeat' constructor

/-- Claim C6: `SetNormalMap(p, s)` makes `NormalMap()` return `p` and
`NormalMapType()` return `s`; `SetLightMap(p, u)` makes `LightMap()`
return `p` and `LightMapTexCoordSet()` return `u`; each composite setter
is a single atomic update that leaves every field outside its own pair
unchanged (so no accessor can observe a mismatched intermediate state);
the defaulted second arguments are `TANGENT` and `0`. -/
theorem claim_C6 (m : Pbr) (p : String) (s : NormalMapSpace) (u : Nat) :
    (m.SetNormalMap p s).NormalMap = p ∧
    (m.SetNormalMap p s).NormalMapType = s ∧
    (m.SetLightMap p u).LightMap = p ∧
    (m.SetLightMap p u).LightMapTexCoordSet = u ∧
    m.SetNormalMapDefault p = m.SetNormalMap p NormalMapSpace.TANGENT ∧
    m.SetLightMapDefault p = m.SetLightMap p 0 ∧
    (∀ f : PbrField, f ∉ touched (SetterCall.SetNormalMap p s) →
      (m.SetNormalMap p s).observe f = m.observe f) ∧
    (∀ f : PbrField, f ∉ touched (SetterCall.SetLightMap p u) →
      (m.SetLightMap p u).observe f = m.observe f) := by
  refine ⟨rfl, rfl, rfl, rfl, rfl, rfl, ?_, ?_⟩
  · intro f hf
    exact applySetter_frame (SetterCall.SetNormalMap p s) m f hf
  · intro f hf
    exact applySetter_frame (SetterCall.SetLightMap p u) m f hf

/-- Claim C6 witness: the composite setters evaluated at a concrete
instance and input. -/
theorem claim_C6_witness :
    (Pbr.mkDefault.SetNormalMap "n.png" NormalMapSpace.OBJECT).NormalMap
      = "n.png" ∧
    (Pbr.mkDefault.SetNormalMap "n.png" NormalMapSpace.OBJECT).observe
      PbrField.albedoMap = Pbr.mkDefault.observe PbrField.albedoMap ∧
    (Pbr.mkDefault.SetLightMap "l.png" 3).LightMapTexCoordSet = 3 := by
  have h := claim_C6 Pbr.mkDefault "n.png" NormalMapSpace.OBJECT 3
  have h2 := claim_C6 Pbr.mkDefault "l.png" NormalMapSpace.OBJECT 3
  exact ⟨h.1, h.2.2.2.2.2.2.1 PbrField.albedoMap (by decide),
    h2.2.2.2.1⟩

/-- Claim C7: every setter call modifies only its own named field or
fields and leaves every other field unchanged as observed through the
other getters (in particular `SetType` and setters of the workflow not
selected by `workflowType` succeed unconditionally and alter nothing
else), and changing exactly one field to a different value on one of two
equal instances makes them compare unequal. -/
theorem claim_C7 (c : SetterCall) (m : Pbr) :
    (∀ f : PbrField, f ∉ touched c →
      (applySetter c m).observe f = m.observe f) ∧
    (∀ (a : Pbr) (f : PbrField), a.beq m = true → touched c = [f] →
      (applySetter c m).observe f ≠ m.observe f →
      a.beq (applySetter c m) = false) := by
  constructor
  · intro f hf
    exact applySetter_frame c m f hf
  · intro a f hab _ hne
    cases hb : a.beq (applySetter c m) with
    | false => rfl
    | true =>
      exfalso
      have h1 : a = m := (Pbr.beq_iff_eq a m).mp hab
      have h2 : a = applySetter c m := (Pbr.beq_iff_eq a _).mp hb
      have h3 : applySetter c m = m := by rw [← h2, h1]
      exact hne (by rw [h3])

/-- Claim C7 witness: setting the roughness of a default (metal-less)
instance leaves the albedo map unchanged and makes the pair compare
unequal. -/
theorem claim_C7_witness :
    (applySetter (SetterCall.SetRoughness (3 / 5)) Pbr.mkDefault).observe
      PbrField.albedoMap = Pbr.mkDefault.observe PbrField.albedoMap ∧
    Pbr.mkDefault.beq
      (applySetter (SetterCall.SetRoughness (3 / 5)) Pbr.mkDefault)
      = false := by
  have h := claim_C7 (SetterCall.SetRoughness (3 / 5)) Pbr.mkDefault
  exact ⟨h.1 PbrField.albedoMap (by decide),
    h.2 Pbr.mkDefault PbrField.roughness (Pbr.beq_refl Pbr.mkDefault) rfl
      (by norm_num [applySetter, Pbr.observe, Pbr.SetRoughness,
        Pbr.Roughness, Pbr.mkDefault, Obs.ofRat.injEq])⟩

/-- Claim C8: running the same setter calls with the same values in two
different orders on the same starting instance yields instances comparing
equal under `operator==`, provided each field is written by at most one of
the calls (pairwise disjoint touched-field sets): the final state depends
only on the last value written to each field, not on the call order
across distinct fields. -/
theorem claim_C8 (m : Pbr) (l1 l2 : List SetterCall) (hp : l1.Perm l2)
    (hd : l1.Pairwise (fun c1 c2 => (touched c1).Disjoint (touched c2))) :
    (applyAll l1 m).beq (applyAll l2 m) = true := by
  rw [applyAll_perm l1 l2 hp hd m]
  exact Pbr.beq_refl (applyAll l2 m)

/-- Claim C8 witness: the scenario of the spec, metal workflow with
albedo map, metalness map and roughness 0.4, built in two different
orders. -/
theorem claim_C8_witness :
    (applyAll
      [SetterCall.SetType PbrType.METAL,
       SetterCall.SetAlbedoMap "albedo.png",
       SetterCall.SetMetalnessMap "metal.png",
       SetterCall.SetRoughness (2 / 5)] Pbr.mkDefault).beq
    (applyAll
      [SetterCall.SetRoughness (2 / 5),
       SetterCall.SetMetalnessMap "metal.png",
       SetterCall.SetAlbedoMap "albedo.png",
       SetterCall.SetType PbrType.METAL] Pbr.mkDefault) = true :=
  claim_C8 Pbr.mkDefault _ _
    (by
      simpa using (List.reverse_perm
        [SetterCall.SetType PbrType.METAL,
         SetterCall.SetAlbedoMap "albedo.png",
         SetterCall.SetMetalnessMap "metal.png",
         SetterCall.SetRoughness (2 / 5)]).symm)
    (by simp [List.pairwise_cons, touched, List.Disjoint])

/-- Claim C9: `TestBuildType` probes its signals in priority order —
`kBazel` whenever `IGN_BAZEL` is set, regardless of the
`_projectSourcePath` argument; otherwise `kCMake` whenever
`_projectSourcePath` is non-empty; otherwise `kUnknown` — and
`TestPathFactory` dispatches to exactly the matching strategy
(`BazelTestPaths` for `kBazel`, `CMakeTestPaths` for `kCMake`, the null
result for `kUnknown`). -/
theorem claim_C9 (e : Env) (p : String) :
    ((e "IGN_BAZEL").isSome = true → TestBuildType e p = BuildType.kBazel) ∧
    ((e "IGN_BAZEL").isSome = false → p.isEmpty = false →
      TestBuildType e p = BuildType.kCMake) ∧
    ((e "IGN_BAZEL").isSome = false → p.isEmpty = true →
      TestBuildType e p = BuildType.kUnknown) ∧
    (TestBuildType e p = BuildType.kBazel →
      TestPathFactory e p = some (TestPathsObj.bazel p)) ∧
    (TestBuildType e p = BuildType.kCMake →
      TestPathFactory e p = some (TestPathsObj.cmake p)) ∧
    (TestBuildType e p = BuildType.kUnknown →
      TestPathFactory e p = none) := by
  refine ⟨?_, ?_, ?_, ?_, ?_, ?_⟩
  · intro h
    simp [TestBuildType, h]
  · intro h h2
    simp [TestBuildType, h, h2]
  · intro h h2
    simp [TestBuildType, h, h2]
  · intro h
    simp [TestPathFactory, h]
  · intro h
    simp [TestPathFactory, h]
  · intro h
    simp [TestPathFactory, h]

/-- Claim C9 witness: a bazel environment beats a non-empty source path,
an empty environment with a non-empty path gives cmake, and an empty
environment with an empty path gives the null factory result. -/
theorem claim_C9_witness :
    TestBuildType envBazelOnly "/src" = BuildType.kBazel ∧
    TestPathFactory envBazelOnly "/src"
      = some (TestPathsObj.bazel "/src") ∧
    TestBuildType envEmpty "/src" = BuildType.kCMake ∧
    TestPathFactory envEmpty "" = none := by
  have h1 := claim_C9 envBazelOnly "/src"
  have h2 := claim_C9 envEmpty "/src"
  have h3 := claim_C9 envEmpty ""
  refine ⟨h1.1 (by decide), ?_, h2.2.1 (by decide) (by decide),
    h3.2.2.2.2.2 (h3.2.2.1 (by decide) (by decide))⟩
  exact h1.2.2.2.1 (h1.1 (by decide))

/-- Claim C10: `BazelTestPaths::ProjectSourcePath` returns true and writes
the join of `TEST_SRCDIR`, `"ignition"` and `IGN_BAZEL_PATH` exactly when
both variables are present, and returns false leaving its out-parameter
untouched otherwise; `BazelTestPaths::TestTmpPath` returns true exactly
when `TEST_UNDECLARED_OUTPUTS_DIR` is present; and
`MakeTestTempDirectoryImpl` propagates failure as a null result when the
factory result is null or when the resolved temporary directory string is
empty, for every behaviour of the CMake strategy.  (Every operation is a
total function; no exception is modelled because none can be thrown.) -/
theorem claim_C10 (cmakeTmp : Env → String → Bool × String) (e : Env)
    (src tmp p pre sub : String) (cl : Bool) :
    (∀ t b : String, e "TEST_SRCDIR" = some t → e "IGN_BAZEL_PATH" = some b →
      BazelProjectSourcePath e src
        = (true, joinPaths (joinPaths t "ignition") b)) ∧
    ((e "TEST_SRCDIR").isSome = false ∨ (e "IGN_BAZEL_PATH").isSome = false →
      BazelProjectSourcePath e src = (false, src)) ∧
    ((BazelProjectSourcePath e src).1
      = ((e "TEST_SRCDIR").isSome && (e "IGN_BAZEL_PATH").isSome)) ∧
    ((BazelTestTmpPath e tmp).1 = (e "TEST_UNDECLARED_OUTPUTS_DIR").isSome) ∧
    (TestPathFactory e p = none →
      MakeTestTempDirectoryImpl cmakeTmp e p pre sub cl = none) ∧
    (∀ tp : TestPathsObj, TestPathFactory e p = some tp →
      ((dispatchTestTmpPath cmakeTmp tp e "").2).isEmpty = true →
      MakeTestTempDirectoryImpl cmakeTmp e p pre sub cl = none) := by
  refine ⟨?_, ?_, ?_, ?_, ?_, ?_⟩
  · intro t b h1 h2
    simp [BazelProjectSourcePath, h1, h2]
  · intro h
    rcases h with h | h
    · cases he : e "TEST_SRCDIR" with
      | none => simp [BazelProjectSourcePath, he]
      | some t => rw [he] at h; simp at h
    · cases he : e "TEST_SRCDIR" with
      | none => simp [BazelProjectSourcePath, he]
      | some t =>
        cases hb : e "IGN_BAZEL_PATH" with
        | none => simp [BazelProjectSourcePath, he, hb]
        | some b => rw [hb] at h; simp at h
  · cases he : e "TEST_SRCDIR" with
    | none => simp [BazelProjectSourcePath, he]
    | some t =>
      cases hb : e "IGN_BAZEL_PATH" with
      | none => simp [BazelProjectSourcePath, he, hb]
      | some b => simp [BazelProjectSourcePath, he, hb]
  · cases ho : e "TEST_UNDECLARED_OUTPUTS_DIR" with
    | none => simp [BazelTestTmpPath, ho]
    | some v => simp [BazelTestTmpPath, ho]
  · intro h
    simp [MakeTestTempDirectoryImpl, h]
  · intro tp h hemp
    simp [MakeTestTempDirectoryImpl, h, hemp]

/-- Claim C10 witness: with the three bazel variables set the source path
resolves to the joined directory; with an empty environment the factory
result is null and the temporary-directory construction propagates the
null; with a bazel environment whose outputs variable is missing the
resolved directory stays empty and the construction also yields null. -/
theorem claim_C10_witness :
    BazelProjectSourcePath envBazelFull "untouched"
      = (true, "/srcdir/ignition/pkg") ∧
    (BazelTestTmpPath envBazelFull "x").1 = true ∧
    BazelProjectSourcePath envEmpty "untouched" = (false, "untouched") ∧
    MakeTestTempDirectoryImpl (fun _ cur => (false, cur)) envEmpty ""
      "pre" "sub" true = none ∧
    MakeTestTempDirectoryImpl (fun _ cur => (false, cur)) envBazelOnly ""
      "pre" "sub" true = none := by
  have h1 := claim_C10 (fun _ cur => (false, cur)) envBazelFull
    "untouched" "x" "" "pre" "sub" true
  have h2 := claim_C10 (fun _ cur => (false, cur)) envEmpty
    "untouched" "x" "" "pre" "sub" true
  have h3 := claim_C10 (fun _ cur => (false, cur)) envBazelOnly
    "untouched" "x" "" "pre" "sub" true
  refine ⟨?_, ?_, ?_, ?_, ?_⟩
  · exact (h1.1 "/srcdir" "pkg" (by decide) (by decide)).trans (by decide)
  · exact (h1.2.2.2.1).trans (by decide)
  · exact h2.2.1 (Or.inl (by decide))
  · exact h2.2.2.2.2.1 (by decide)
  · exact h3.2.2.2.2.2 (TestPathsObj.bazel "") (by decide) (by decide)

end GzCommon
